import Mathlib

/-!
Verification development for the Parallel-Pipelines repository
(Hvass-Labs/Parallel-Pipelines): three example programs (`main2.cpp`,
`main3.cpp`, `main4.cpp`) that run small software pipelines with
fork-join rounds, plus common helpers (`common.hpp`).

The C++ code is shallowly embedded: each per-round loop body becomes a
step function on an explicit buffer state, and each `parallel` driver
becomes the list of per-round records (the values printed each round,
together with the buffer snapshots passed to the async calls).  The
toy processing functions `F`, `G`, `H`, `sum` only build strings
(their `sleep_for` calls model elapsed time, which has no effect on
the computed values and is not embedded).
-/

namespace Pipelines

/-- `common.hpp` line 19: the sentinel meaning "no data to process". -/
def no_data : String := "--"

/-- `common.hpp` lines 27-33: dummy processing function `F`
(string-wraps its argument; the sleep only consumes time). -/
def F (x : String) : String := "F(" ++ x ++ ")"

/-- `common.hpp` lines 36-42: dummy processing function `G`. -/
def G (x : String) : String := "G(" ++ x ++ ")"

/-- `common.hpp` lines 45-51: dummy processing function `H`. -/
def H (x : String) : String := "H(" ++ x ++ ")"

/-- `common.hpp` lines 54-58: dummy processing function `+`,
joining its two arguments with `" + "`. -/
def sum (x y : String) : String := x ++ " + " ++ y

/-- `common.hpp` lines 70-83: `gen_vec_string(n, prefix)` builds the
vector whose `i`-th entry is `prefix + "_" + to_string(i)`, by pushing
one string per loop iteration `i = 0 .. n-1`. -/
def gen_vec_string (n : Nat) (pfx : String) : List String :=
  (List.range n).map (fun i => pfx ++ "_" ++ toString i)

/-- The expression `(i < x_vec.size()) ? x_vec[i] : no_data` used by all
three parallel drivers (`main2.cpp` line 86, `main3.cpp` line 87,
`main4.cpp` lines 89-90) to pick round `i`'s external input. -/
def xin (x_vec : List String) (i : Nat) : String :=
  if h : i < x_vec.length then x_vec.get ⟨i, h⟩ else no_data

/-! ## main2.cpp : the 3-stage chain y[i] = H(G(F(x[i]))) -/

/-- `main2.cpp` lines 38-60: the serial reference loop computes
`y_i = H(G(F(x_i)))` for every index of the input vector. -/
def serial2 (x_vec : List String) : List String :=
  x_vec.map (fun x_i => H (G (F x_i)))

/-- One round of `main2.cpp`'s `parallel` (lines 83-112): the external
input chosen for the round, the two buffer values passed to the async
calls of `G` and `H`, and the three results printed for the round. -/
structure Round2 where
  x_i : String
  F_buffer_in : String
  G_buffer_in : String
  F_result : String
  G_result : String
  H_result : String
deriving DecidableEq

/-- `main2.cpp` lines 86-107, the loop body for iteration `i`: launch
`F(x_i)`, `G(F_buffer)`, `H(G_buffer)`, join all three, then overwrite
the buffers with this round's `F_result` and `G_result`.  The state is
the pair `(F_buffer, G_buffer)`; the returned state is the buffer pair
for the next iteration. -/
def round2 (x_vec : List String) (b : String × String) (i : Nat) :
    Round2 × String × String :=
  let x_i := xin x_vec i
  let F_result := F x_i
  let G_result := G b.1
  let H_result := H b.2
  (⟨x_i, b.1, b.2, F_result, G_result, H_result⟩, F_result, G_result)

/-- The loop of `main2.cpp`'s `parallel`, unrolled: run `n` iterations
starting at counter value `i` with buffer state `b`, collecting the
per-round records. -/
def run2 (x_vec : List String) (b : String × String) (i : Nat) :
    Nat → List Round2
  | 0 => []
  | n + 1 =>
    let step := round2 x_vec b i
    step.1 :: run2 x_vec step.2 (i + 1) n

/-- `main2.cpp` lines 70-116: the `parallel` driver.  Buffers start as
`no_data` (lines 78-79) and the loop runs `x_vec.size() + 2` iterations
(line 83). -/
def parallel2 (x_vec : List String) : List Round2 :=
  run2 x_vec (no_data, no_data) 0 (x_vec.length + 2)

/-- Closed form of `F_buffer` at the start of round `r` of `parallel2`:
the sentinel for `r = 0`, and round `r-1`'s `F_result` afterwards. -/
def F_buffer2 (x_vec : List String) : Nat → String
  | 0 => no_data
  | r + 1 => F (xin x_vec r)

/-- Closed form of `G_buffer` at the start of round `r` of `parallel2`. -/
def G_buffer2 (x_vec : List String) : Nat → String
  | 0 => no_data
  | r + 1 => G (F_buffer2 x_vec r)

/-- Closed form of the record produced by round `r` of `parallel2`. -/
def mkRound2 (x_vec : List String) (r : Nat) : Round2 :=
  ⟨xin x_vec r, F_buffer2 x_vec r, G_buffer2 x_vec r,
   F (xin x_vec r), G (F_buffer2 x_vec r), H (G_buffer2 x_vec r)⟩

/-! ## main3.cpp : the 2-stage chain with join y[i] = F(x[i]) + G(F(x[i])) -/

/-- `main3.cpp` lines 37-62: the serial reference loop computes
`F_x_i = F(x_i)` once and then `y_i = sum(F_x_i, G(F_x_i))`. -/
def serial3 (x_vec : List String) : List String :=
  x_vec.map (fun x_i => let F_x_i := F x_i; sum F_x_i (G F_x_i))

/-- One round of `main3.cpp`'s `parallel` (lines 84-113): the external
input, the `F_buffer` value read by this round (passed to the async call
of `G` and read again by the main-thread `sum`), the two stage results,
and the round's output `y`. -/
structure Round3 where
  x_i : String
  F_buffer_in : String
  F_result : String
  G_result : String
  y : String
deriving DecidableEq

/-- `main3.cpp` lines 87-108, the loop body for iteration `i`: launch
`F(x_i)` and `G(F_buffer)`, join both, compute
`y = sum(F_buffer, G_result)` on the main thread (line 104, still the
old buffer value), then overwrite `F_buffer` with `F_result`
(line 108). -/
def round3 (x_vec : List String) (b : String) (i : Nat) :
    Round3 × String :=
  let x_i := xin x_vec i
  let F_result := F x_i
  let G_result := G b
  let y := sum b G_result
  (⟨x_i, b, F_result, G_result, y⟩, F_result)

/-- The loop of `main3.cpp`'s `parallel`, unrolled. -/
def run3 (x_vec : List String) (b : String) (i : Nat) :
    Nat → List Round3
  | 0 => []
  | n + 1 =>
    let step := round3 x_vec b i
    step.1 :: run3 x_vec step.2 (i + 1) n

/-- `main3.cpp` lines 72-117: the `parallel` driver.  The buffer starts
as `no_data` (line 80) and the loop runs `x_vec.size() + 1` iterations
(line 84). -/
def parallel3 (x_vec : List String) : List Round3 :=
  run3 x_vec no_data 0 (x_vec.length + 1)

/-- Closed form of `F_buffer` at the start of round `r` of `parallel3`. -/
def F_buffer3 (x_vec : List String) : Nat → String
  | 0 => no_data
  | r + 1 => F (xin x_vec r)

/-- Closed form of the record produced by round `r` of `parallel3`. -/
def mkRound3 (x_vec : List String) (r : Nat) : Round3 :=
  ⟨xin x_vec r, F_buffer3 x_vec r, F (xin x_vec r),
   G (F_buffer3 x_vec r), sum (F_buffer3 x_vec r) (G (F_buffer3 x_vec r))⟩

/-! ## main4.cpp : the diamond y[i] = H(F(x[i]) + G(z[i])) -/

/-- `main4.cpp` lines 40-63: the serial reference loop runs over the
indices of `x_vec` and computes `y_i = H(sum(F(x_i), G(z_i)))`.  The
access `z_vec[i]` (line 52) is unchecked; an out-of-bounds index is
undefined behaviour in C++ and is modelled as failure (`none`). -/
def serial4 (x_vec z_vec : List String) : Option (List String) :=
  (List.range x_vec.length).mapM (fun i => do
    let x_i ← x_vec.get? i
    let z_i ← z_vec.get? i
    pure (H (sum (F x_i) (G z_i))))

/-- One round of `main4.cpp`'s `parallel` (lines 86-114): the two
external inputs, the `F_G_sum_buffer` value passed to the async call of
`H`, and the three stage results. -/
structure Round4 where
  x_i : String
  z_i : String
  buffer_in : String
  F_result : String
  G_result : String
  H_result : String
deriving DecidableEq

/-- `main4.cpp` lines 89-109, the loop body for iteration `i`: launch
`F(x_i)`, `G(z_i)`, `H(F_G_sum_buffer)`, join all three, then overwrite
the buffer with `sum(F_result, G_result)` (line 109). -/
def round4 (x_vec z_vec : List String) (b : String) (i : Nat) :
    Round4 × String :=
  let x_i := xin x_vec i
  let z_i := xin z_vec i
  let F_result := F x_i
  let G_result := G z_i
  let H_result := H b
  (⟨x_i, z_i, b, F_result, G_result, H_result⟩, sum F_result G_result)

/-- The loop of `main4.cpp`'s `parallel`, unrolled. -/
def run4 (x_vec z_vec : List String) (b : String) (i : Nat) :
    Nat → List Round4
  | 0 => []
  | n + 1 =>
    let step := round4 x_vec z_vec b i
    step.1 :: run4 x_vec z_vec step.2 (i + 1) n

/-- `main4.cpp` lines 74-118: the `parallel` driver.  The buffer starts
as `no_data` (line 82) and the loop runs `x_vec.size() + 1` iterations
(line 86). -/
def parallel4 (x_vec z_vec : List String) : List Round4 :=
  run4 x_vec z_vec no_data 0 (x_vec.length + 1)

/-- Closed form of `F_G_sum_buffer` at the start of round `r` of
`parallel4`. -/
def sum_buffer4 (x_vec z_vec : List String) : Nat → String
  | 0 => no_data
  | r + 1 => sum (F (xin x_vec r)) (G (xin z_vec r))

/-- Closed form of the record produced by round `r` of `parallel4`. -/
def mkRound4 (x_vec z_vec : List String) (r : Nat) : Round4 :=
  ⟨xin x_vec r, xin z_vec r, sum_buffer4 x_vec z_vec r,
   F (xin x_vec r), G (xin z_vec r), H (sum_buffer4 x_vec z_vec r)⟩

/-! ## Buffer access events

The loop bodies are straight-line code, so the sequence of buffer
variable accesses is the same in every iteration.  Each round's
accesses are recorded in source order as an event list. -/

/-- A buffer-variable access inside one loop iteration: a read (the
buffer appearing as an argument of an async launch or of the
main-thread `sum`), the join of all the round's futures (the block of
`get()` calls), or an overwrite of the buffer. -/
inductive BufEv where
  | read : String → BufEv
  | joinAll : BufEv
  | write : String → BufEv
deriving DecidableEq

/-- The buffer accesses of one iteration of `main2.cpp`'s parallel loop
(lines 89-107), in source order: line 93 reads `F_buffer`, line 97
reads `G_buffer`, lines 100-102 join the three futures, lines 106-107
overwrite the two buffers. -/
def round2_events : List BufEv :=
  [BufEv.read ("F_buffer"), BufEv.read ("G_buffer"), BufEv.joinAll,
   BufEv.write ("F_buffer"), BufEv.write ("G_buffer")]

/-- The buffer accesses of one iteration of `main3.cpp`'s parallel loop
(lines 90-108), in source order: line 94 reads `F_buffer` (async launch
of `G`), lines 97-98 join the two futures, line 104 reads `F_buffer`
again (the main-thread `sum`), line 108 overwrites it. -/
def round3_events : List BufEv :=
  [BufEv.read ("F_buffer"), BufEv.joinAll,
   BufEv.read ("F_buffer"), BufEv.write ("F_buffer")]

/-- The per-round buffer-access traces of a `parallel2` run: one event
list per loop iteration. -/
def events2 (x_vec : List String) : List (List BufEv) :=
  (List.range (x_vec.length + 2)).map (fun _ => round2_events)

/-- The per-round buffer-access traces of a `parallel3` run. -/
def events3 (x_vec : List String) : List (List BufEv) :=
  (List.range (x_vec.length + 1)).map (fun _ => round3_events)

/-- Whether an event is a write. -/
def BufEv.isWrite : BufEv → Bool
  | BufEv.write _ => true
  | _ => false

/-- In event list `e`, every read of `slot` occurs strictly before
every write of `slot`. -/
def readsBeforeWrites (slot : String) (e : List BufEv) : Prop :=
  ∀ i j : Fin e.length,
    e.get i = BufEv.read slot → e.get j = BufEv.write slot → (i : Nat) < j

/-- In event list `e`, every write occurs strictly after the join of
the round's futures. -/
def writesAfterJoin (e : List BufEv) : Prop :=
  ∀ i j : Fin e.length,
    e.get i = BufEv.joinAll → (e.get j).isWrite = true → (i : Nat) < j

instance (slot : String) (e : List BufEv) :
    Decidable (readsBeforeWrites slot e) := by
  unfold readsBeforeWrites; infer_instance

instance (e : List BufEv) : Decidable (writesAfterJoin e) := by
  unfold writesAfterJoin; infer_instance

/-! ## Scheduled execution of main2's rounds

`std::async` copies its arguments at launch time, so each task is a
stage function together with the argument snapshot it was given; the
three tasks of a `main2.cpp` round share no mutable state.  A schedule
fixes the order in which the launched tasks of a round execute; the
buffer writes happen only after all futures are joined.  Determinism
of the parallel run is stated as: the run's trace is the same for any
two complete schedules. -/

/-- A task launched by `std::async`: a stage function plus the copy of
its argument taken at launch time. -/
structure Task where
  fn : String → String
  arg : String

/-- Execution of one task: store its result under its index.  Indices
`0`, `1`, `2` stand for the `F`, `G` and `H` futures of a `main2.cpp`
round. -/
def taskStep (tasks : Fin 3 → Task) (store : Fin 3 → Option String)
    (j : Fin 3) : Fin 3 → Option String :=
  fun k => if k = j then some ((tasks j).fn (tasks j).arg) else store k

/-- Execute the round's tasks in the completion order given by
`order`, starting from an empty result store. -/
def execTasks (tasks : Fin 3 → Task) (order : List (Fin 3)) :
    Fin 3 → Option String :=
  order.foldl (taskStep tasks) (fun _ => none)

/-- `future::get()` for task `j`: the stored result.  A `get()` on a
task that never executed would block forever; the default value is
unreachable under a complete schedule. -/
def getResult (store : Fin 3 → Option String) (j : Fin 3) : String :=
  (store j).getD no_data

/-- The three tasks launched by one `main2.cpp` round (lines 89-97),
with their launch-time argument snapshots: `F(x_i)`, `G(F_buffer)`,
`H(G_buffer)`. -/
def round2Tasks (x_vec : List String) (b : String × String) (i : Nat) :
    Fin 3 → Task :=
  fun j => if j = 0 then ⟨F, xin x_vec i⟩
           else if j = 1 then ⟨G, b.1⟩ else ⟨H, b.2⟩

/-- One `main2.cpp` round executed under an explicit task schedule
`order`: launch the three tasks, run them in `order`, join (read all
three results), then overwrite the buffers. -/
def round2Sched (x_vec : List String) (b : String × String) (i : Nat)
    (order : List (Fin 3)) : Round2 × String × String :=
  (⟨xin x_vec i, b.1, b.2,
    getResult (execTasks (round2Tasks x_vec b i) order) 0,
    getResult (execTasks (round2Tasks x_vec b i) order) 1,
    getResult (execTasks (round2Tasks x_vec b i) order) 2⟩,
   getResult (execTasks (round2Tasks x_vec b i) order) 0,
   getResult (execTasks (round2Tasks x_vec b i) order) 1)

/-- The loop of `main2.cpp`'s `parallel` under a schedule: iteration
`i`'s tasks execute in the order `sched i`. -/
def run2Sched (x_vec : List String) (sched : Nat → List (Fin 3))
    (b : String × String) (i : Nat) : Nat → List Round2
  | 0 => []
  | n + 1 =>
    let step := round2Sched x_vec b i (sched i)
    step.1 :: run2Sched x_vec sched step.2 (i + 1) n

/-- `main2.cpp`'s `parallel` driver under an explicit task schedule. -/
def parallel2Sched (x_vec : List String) (sched : Nat → List (Fin 3)) :
    List Round2 :=
  run2Sched x_vec sched (no_data, no_data) 0 (x_vec.length + 2)

/-! ## Helper lemmas -/

theorem run2_closed (x_vec : List String) (n : Nat) :
    ∀ i, run2 x_vec (F_buffer2 x_vec i, G_buffer2 x_vec i) i n =
      (List.range' i n).map (mkRound2 x_vec) := by
  induction n with
  | zero => intro i; rfl
  | succ n ih =>
    intro i
    rw [List.range'_succ, List.map_cons, ← ih (i + 1)]
    rfl

theorem parallel2_closed (x_vec : List String) :
    parallel2 x_vec =
      (List.range' 0 (x_vec.length + 2)).map (mkRound2 x_vec) :=
  run2_closed x_vec (x_vec.length + 2) 0

theorem parallel2_length (x_vec : List String) :
    (parallel2 x_vec).length = x_vec.length + 2 := by
  rw [parallel2_closed, List.length_map, List.length_range']

theorem parallel2_get? (x_vec : List String) (r : Nat)
    (h : r < x_vec.length + 2) :
    (parallel2 x_vec).get? r = some (mkRound2 x_vec r) := by
  rw [parallel2_closed, List.get?_eq_getElem?,
    List.getElem?_eq_getElem (by simpa using h)]
  simp [List.getElem_range']

theorem run3_closed (x_vec : List String) (n : Nat) :
    ∀ i, run3 x_vec (F_buffer3 x_vec i) i n =
      (List.range' i n).map (mkRound3 x_vec) := by
  induction n with
  | zero => intro i; rfl
  | succ n ih =>
    intro i
    rw [List.range'_succ, List.map_cons, ← ih (i + 1)]
    rfl

theorem parallel3_closed (x_vec : List String) :
    parallel3 x_vec =
      (List.range' 0 (x_vec.length + 1)).map (mkRound3 x_vec) :=
  run3_closed x_vec (x_vec.length + 1) 0

theorem parallel3_length (x_vec : List String) :
    (parallel3 x_vec).length = x_vec.length + 1 := by
  rw [parallel3_closed, List.length_map, List.length_range']

theorem parallel3_get? (x_vec : List String) (r : Nat)
    (h : r < x_vec.length + 1) :
    (parallel3 x_vec).get? r = some (mkRound3 x_vec r) := by
  rw [parallel3_closed, List.get?_eq_getElem?,
    List.getElem?_eq_getElem (by simpa using h)]
  simp [List.getElem_range']

theorem run4_closed (x_vec z_vec : List String) (n : Nat) :
    ∀ i, run4 x_vec z_vec (sum_buffer4 x_vec z_vec i) i n =
      (List.range' i n).map (mkRound4 x_vec z_vec) := by
  induction n with
  | zero => intro i; rfl
  | succ n ih =>
    intro i
    rw [List.range'_succ, List.map_cons, ← ih (i + 1)]
    rfl

theorem parallel4_closed (x_vec z_vec : List String) :
    parallel4 x_vec z_vec =
      (List.range' 0 (x_vec.length + 1)).map (mkRound4 x_vec z_vec) :=
  run4_closed x_vec z_vec (x_vec.length + 1) 0

theorem parallel4_length (x_vec z_vec : List String) :
    (parallel4 x_vec z_vec).length = x_vec.length + 1 := by
  rw [parallel4_closed, List.length_map, List.length_range']

theorem parallel4_get? (x_vec z_vec : List String) (r : Nat)
    (h : r < x_vec.length + 1) :
    (parallel4 x_vec z_vec).get? r = some (mkRound4 x_vec z_vec r) := by
  rw [parallel4_closed, List.get?_eq_getElem?,
    List.getElem?_eq_getElem (by simpa using h)]
  simp [List.getElem_range']

theorem mapM_bounded (x_vec z_vec : List String)
    (h : x_vec.length ≤ z_vec.length) :
    ∀ l : List Nat, (∀ i ∈ l, i < x_vec.length) →
      (List.mapM (fun i => do
          let x_i ← x_vec.get? i
          let z_i ← z_vec.get? i
          pure (H (sum (F x_i) (G z_i)))) l : Option (List String)) =
        some (l.map (fun i =>
          H (sum (F (xin x_vec i)) (G (xin z_vec i))))) := by
  intro l
  induction l with
  | nil => intro _; rfl
  | cons a t ih =>
    intro hb
    have ha : a < x_vec.length := hb a (List.mem_cons_self a t)
    have haz : a < z_vec.length := lt_of_lt_of_le ha h
    rw [List.mapM_cons, ih (fun i hi => hb i (List.mem_cons_of_mem a hi))]
    simp [List.get?_eq_getElem?, List.getElem?_eq_getElem ha,
      List.getElem?_eq_getElem haz, xin, ha, haz]

theorem serial4_eq_some (x_vec z_vec : List String)
    (h : x_vec.length ≤ z_vec.length) :
    serial4 x_vec z_vec = some ((List.range x_vec.length).map
      (fun i => H (sum (F (xin x_vec i)) (G (xin z_vec i))))) :=
  mapM_bounded x_vec z_vec h _ (fun _ hi => List.mem_range.mp hi)

theorem foldl_taskStep (tasks : Fin 3 → Task) (j : Fin 3) :
    ∀ (order : List (Fin 3)) (store : Fin 3 → Option String),
      order.foldl (taskStep tasks) store j =
        if j ∈ order then some ((tasks j).fn (tasks j).arg)
        else store j := by
  intro order
  induction order with
  | nil => intro store; simp
  | cons a l ih =>
    intro store
    rw [List.foldl_cons, ih]
    by_cases hj : j ∈ l
    · simp [hj]
    · by_cases ha : j = a
      · subst ha; simp [hj, taskStep]
      · simp [hj, ha, taskStep]

theorem round2Sched_complete (x_vec : List String) (b : String × String)
    (i : Nat) (order : List (Fin 3)) (h : ∀ j : Fin 3, j ∈ order) :
    round2Sched x_vec b i order = round2 x_vec b i := by
  simp only [round2Sched, round2, getResult, execTasks,
    foldl_taskStep, h 0, h 1, h 2, if_pos, round2Tasks]
  rfl

theorem run2Sched_complete (x_vec : List String)
    (sched : Nat → List (Fin 3)) (h : ∀ k (j : Fin 3), j ∈ sched k) :
    ∀ (n : Nat) (b : String × String) (i : Nat),
      run2Sched x_vec sched b i n = run2 x_vec b i n := by
  intro n
  induction n with
  | zero => intro b i; rfl
  | succ n ih =>
    intro b i
    simp only [run2Sched, run2, round2Sched_complete x_vec b i _ (h i), ih]

theorem parallel2Sched_complete (x_vec : List String)
    (sched : Nat → List (Fin 3)) (h : ∀ k (j : Fin 3), j ∈ sched k) :
    parallel2Sched x_vec sched = parallel2 x_vec :=
  run2Sched_complete x_vec sched h (x_vec.length + 2) (no_data, no_data) 0

/-! ## Claim theorems -/

/-- Claim C1: in the 3-stage chain of `main2.cpp`, the `H_result`
computed at round `i + 2` of the parallel run equals `H(G(F(x[i])))`
for every index `i` of the input vector, so the parallel pipeline and
the serial reference evaluator agree element-wise. -/
theorem pipeline2_agrees_with_serial (x_vec : List String) (i : Nat)
    (h : i < x_vec.length) :
    ((parallel2 x_vec).get? (i + 2)).map Round2.H_result =
      (x_vec.get? i).map (fun x_i => H (G (F x_i))) ∧
    ((parallel2 x_vec).get? (i + 2)).map Round2.H_result =
      (serial2 x_vec).get? i := by
  have h2 : i + 2 < x_vec.length + 2 := by omega
  rw [parallel2_get? x_vec (i + 2) h2]
  refine ⟨?_, ?_⟩
  · simp [mkRound2, G_buffer2, F_buffer2, xin, h,
      List.get?_eq_getElem?, List.getElem?_eq_getElem h]
  · simp [serial2, mkRound2, G_buffer2, F_buffer2, xin, h,
      List.get?_eq_getElem?, List.getElem?_eq_getElem h]

/-- Witness for C1 at the concrete input `["a"]`, index `0`. -/
theorem pipeline2_agrees_with_serial_witness :
    0 < (["a"] : List String).length ∧
    (((parallel2 ["a"]).get? 2).map Round2.H_result =
       ((["a"] : List String).get? 0).map (fun x_i => H (G (F x_i))) ∧
     ((parallel2 ["a"]).get? 2).map Round2.H_result =
       (serial2 ["a"]).get? 0) :=
  ⟨by decide, pipeline2_agrees_with_serial ["a"] 0 (by decide)⟩

/-- Claim C2: each parallel driver runs exactly `N + L` rounds, with
latency `L = 2` for the 3-stage chain of `main2.cpp` and `L = 1` for
the chain-with-join of `main3.cpp` and the diamond of `main4.cpp`
(`N` is the length of the `x` input vector). -/
theorem rounds_eq_inputs_plus_latency (x_vec z_vec : List String) :
    (parallel2 x_vec).length = x_vec.length + 2 ∧
    (parallel3 x_vec).length = x_vec.length + 1 ∧
    (parallel4 x_vec z_vec).length = x_vec.length + 1 :=
  ⟨parallel2_length x_vec, parallel3_length x_vec,
   parallel4_length x_vec z_vec⟩

/-- Claim C7: at every round `r` of every parallel run, the external
input value chosen for that round is `inputs[k][r]` when
`r < len(inputs[k])` and the sentinel `no_data` otherwise (shown for
the single stream of `main2.cpp` over all its `N + 2` rounds and both
streams of `main4.cpp` over all its `N + 1` rounds, each conjunct
bounded by its own run's round count). -/
theorem external_input_selection (x_vec z_vec : List String) (r : Nat) :
    (r < x_vec.length + 2 →
      ((parallel2 x_vec).get? r).map Round2.x_i =
        some (if h : r < x_vec.length then x_vec.get ⟨r, h⟩
              else no_data)) ∧
    (r < x_vec.length + 1 →
      ((parallel4 x_vec z_vec).get? r).map Round4.x_i =
        some (if h : r < x_vec.length then x_vec.get ⟨r, h⟩
              else no_data) ∧
      ((parallel4 x_vec z_vec).get? r).map Round4.z_i =
        some (if h : r < z_vec.length then z_vec.get ⟨r, h⟩
              else no_data)) := by
  constructor
  · intro h2
    rw [parallel2_get? x_vec r h2]
    rfl
  · intro h4
    rw [parallel4_get? x_vec z_vec r h4]
    exact ⟨rfl, rfl⟩

/-- Witness for C7 at the concrete input `x = ["a"]`, `z = []`:
round `2` is `main2.cpp`'s final drain round (`r = N + 1`), and
round `1` is a drain round of `main4.cpp` for both streams. -/
theorem external_input_selection_witness :
    2 < (["a"] : List String).length + 2 ∧
    ((parallel2 ["a"]).get? 2).map Round2.x_i =
      some (if h : 2 < (["a"] : List String).length
            then (["a"] : List String).get ⟨2, h⟩ else no_data) ∧
    1 < (["a"] : List String).length + 1 ∧
    ((parallel4 ["a"] []).get? 1).map Round4.x_i =
      some (if h : 1 < (["a"] : List String).length
            then (["a"] : List String).get ⟨1, h⟩ else no_data) ∧
    ((parallel4 ["a"] []).get? 1).map Round4.z_i =
      some (if h : 1 < ([] : List String).length
            then ([] : List String).get ⟨1, h⟩ else no_data) :=
  ⟨by decide,
   (external_input_selection ["a"] [] 2).1 (by decide),
   by decide,
   ((external_input_selection ["a"] [] 1).2 (by decide)).1,
   ((external_input_selection ["a"] [] 1).2 (by decide)).2⟩

/-- Claim C8: in every parallel run, a stage reading a previous-round
buffer receives exactly the value written into that buffer at the end
of round `r - 1`, and receives the sentinel `no_data` at round `0`
(buffers are initialized to the sentinel before the first round).
Shown for both buffers of `main2.cpp` and the buffer of `main3.cpp`. -/
theorem buffer_delay_register (x_vec : List String) (r : Nat) :
    ((parallel2 x_vec).get? 0).map Round2.F_buffer_in = some no_data ∧
    ((parallel2 x_vec).get? 0).map Round2.G_buffer_in = some no_data ∧
    ((parallel3 x_vec).get? 0).map Round3.F_buffer_in = some no_data ∧
    (r + 1 < x_vec.length + 2 →
      ((parallel2 x_vec).get? (r + 1)).map Round2.F_buffer_in =
        ((parallel2 x_vec).get? r).map Round2.F_result ∧
      ((parallel2 x_vec).get? (r + 1)).map Round2.G_buffer_in =
        ((parallel2 x_vec).get? r).map Round2.G_result) ∧
    (r + 1 < x_vec.length + 1 →
      ((parallel3 x_vec).get? (r + 1)).map Round3.F_buffer_in =
        ((parallel3 x_vec).get? r).map Round3.F_result) := by
  refine ⟨?_, ?_, ?_, ?_, ?_⟩
  · rw [parallel2_get? x_vec 0 (by omega)]; rfl
  · rw [parallel2_get? x_vec 0 (by omega)]; rfl
  · rw [parallel3_get? x_vec 0 (by omega)]; rfl
  · intro hr
    rw [parallel2_get? x_vec (r + 1) hr, parallel2_get? x_vec r (by omega)]
    exact ⟨rfl, rfl⟩
  · intro hr
    rw [parallel3_get? x_vec (r + 1) hr, parallel3_get? x_vec r (by omega)]
    rfl

/-- Witness for C8 at the concrete input `["a"]`, round step `0 → 1`. -/
theorem buffer_delay_register_witness :
    ((parallel2 ["a"]).get? 0).map Round2.F_buffer_in = some no_data ∧
    0 + 1 < (["a"] : List String).length + 2 ∧
    ((parallel2 ["a"]).get? (0 + 1)).map Round2.F_buffer_in =
      ((parallel2 ["a"]).get? 0).map Round2.F_result ∧
    ((parallel2 ["a"]).get? (0 + 1)).map Round2.G_buffer_in =
      ((parallel2 ["a"]).get? 0).map Round2.G_result ∧
    0 + 1 < (["a"] : List String).length + 1 ∧
    ((parallel3 ["a"]).get? (0 + 1)).map Round3.F_buffer_in =
      ((parallel3 ["a"]).get? 0).map Round3.F_result :=
  ⟨(buffer_delay_register ["a"] 0).1, by decide,
   ((buffer_delay_register ["a"] 0).2.2.2.1 (by decide)).1,
   ((buffer_delay_register ["a"] 0).2.2.2.1 (by decide)).2,
   by decide,
   (buffer_delay_register ["a"] 0).2.2.2.2 (by decide)⟩

/-- Claim C3 counterexample: the code discards nothing.  On the input
vector of one element `"x_0"`, the emitted output of `main2.cpp`'s
parallel run contains the round-0 final-output candidate `H(no_data)`,
derived solely from the sentinel, and the emitted output of
`main3.cpp`'s parallel run contains the round-0 candidate
`no_data + G(no_data)` — so the first `L` rounds' candidates are
emitted, not discarded. -/
theorem sentinel_results_emitted_counterexample :
    H no_data ∈ (parallel2 (gen_vec_string 1 "x")).map Round2.H_result ∧
    sum no_data (G no_data) ∈
      (parallel3 (gen_vec_string 1 "x")).map Round3.y := by
  decide

/-- Claim C3 (amended): the final-output candidates of the first `L`
rounds are derived solely from the sentinel — they are fixed strings
built from `no_data` alone, independent of the input vector — and they
are emitted in the per-round output like every other round's candidate
(the code prints all rounds and discards nothing); the candidates from
round `L` onward are the true results: for every `i < N` the candidate
at round `i + L` equals the serial result for index `i`. -/
theorem sentinel_candidates_emitted (x_vec : List String) :
    ((parallel2 x_vec).map Round2.H_result).take 2 =
      [H no_data, H (G no_data)] ∧
    ((parallel3 x_vec).map Round3.y).take 1 =
      [sum no_data (G no_data)] ∧
    (∀ i, i < x_vec.length →
      ((parallel2 x_vec).get? (i + 2)).map Round2.H_result =
        (serial2 x_vec).get? i) ∧
    (∀ i, i < x_vec.length →
      ((parallel3 x_vec).get? (i + 1)).map Round3.y =
        (serial3 x_vec).get? i) := by
  refine ⟨?_, ?_, ?_, ?_⟩
  · rw [parallel2_closed]
    have h1 : x_vec.length + 2 = (x_vec.length + 1) + 1 := rfl
    rw [h1, List.range'_succ, List.range'_succ]
    rfl
  · rw [parallel3_closed, List.range'_succ]
    rfl
  · intro i h
    rw [parallel2_get? x_vec (i + 2) (by omega)]
    simp [serial2, mkRound2, G_buffer2, F_buffer2, xin, h,
      List.get?_eq_getElem?, List.getElem?_eq_getElem h]
  · intro i h
    rw [parallel3_get? x_vec (i + 1) (by omega)]
    simp [serial3, mkRound3, F_buffer3, xin, h,
      List.get?_eq_getElem?, List.getElem?_eq_getElem h]

/-- Witness for the amended C3 at the concrete input `["a"]`,
index `0`. -/
theorem sentinel_candidates_emitted_witness :
    0 < (["a"] : List String).length ∧
    ((parallel2 ["a"]).get? (0 + 2)).map Round2.H_result =
      (serial2 ["a"]).get? 0 ∧
    ((parallel3 ["a"]).get? (0 + 1)).map Round3.y =
      (serial3 ["a"]).get? 0 :=
  ⟨by decide,
   (sentinel_candidates_emitted ["a"]).2.2.1 0 (by decide),
   (sentinel_candidates_emitted ["a"]).2.2.2 0 (by decide)⟩

/-- Claim C4 counterexample: in `main3.cpp` the buffer is *not* read
exactly once per round.  In the run on the one-element input, round 0's
event list reads `F_buffer` twice — once as the argument of the async
launch of `G` (line 94) and once in the main-thread `sum`
(line 104). -/
theorem buffer_single_read_counterexample :
    round3_events ∈ events3 (gen_vec_string 1 "x") ∧
    round3_events.count (BufEv.read ("F_buffer")) = 2 := by
  decide

/-- Claim C4 (amended): in every round of every parallel run, each
buffer slot is overwritten exactly once, and only after the round's
futures have all been joined; every read of a slot occurs before its
overwrite (a single-slot delay register).  In `main2.cpp` each slot is
read exactly once per round; in `main3.cpp` the slot is read twice per
round (async launch of `G`, then the main-thread `sum`). -/
theorem buffer_access_discipline (x_vec : List String) :
    (∀ e ∈ events2 x_vec,
      e.count (BufEv.write ("F_buffer")) = 1 ∧
      e.count (BufEv.write ("G_buffer")) = 1 ∧
      e.count (BufEv.read ("F_buffer")) = 1 ∧
      e.count (BufEv.read ("G_buffer")) = 1 ∧
      readsBeforeWrites ("F_buffer") e ∧
      readsBeforeWrites ("G_buffer") e ∧
      writesAfterJoin e) ∧
    (∀ e ∈ events3 x_vec,
      e.count (BufEv.write ("F_buffer")) = 1 ∧
      e.count (BufEv.read ("F_buffer")) = 2 ∧
      readsBeforeWrites ("F_buffer") e ∧
      writesAfterJoin e) := by
  constructor
  · intro e he
    obtain ⟨a, _, heq⟩ := List.mem_map.mp he
    subst heq
    decide
  · intro e he
    obtain ⟨a, _, heq⟩ := List.mem_map.mp he
    subst heq
    decide

/-- Witness for the amended C4 on the empty input vector's first
round. -/
theorem buffer_access_discipline_witness :
    round2_events ∈ events2 [] ∧
    (round2_events.count (BufEv.write ("F_buffer")) = 1 ∧
     round2_events.count (BufEv.write ("G_buffer")) = 1 ∧
     round2_events.count (BufEv.read ("F_buffer")) = 1 ∧
     round2_events.count (BufEv.read ("G_buffer")) = 1 ∧
     readsBeforeWrites ("F_buffer") round2_events ∧
     readsBeforeWrites ("G_buffer") round2_events ∧
     writesAfterJoin round2_events) :=
  ⟨by decide, (buffer_access_discipline []).1 round2_events (by decide)⟩

/-- Claim C5 counterexample: with `x_vec = ["a", "b"]` and
`z_vec = ["c"]` (the `z` stream shorter), `main4.cpp`'s serial
evaluator indexes `z_vec` out of bounds (modelled as `none`), and the
parallel run's post-fill output has 2 entries, not
`min 2 1 = 1` — the output length is *not* the length of the shortest
input stream. -/
theorem output_length_counterexample :
    serial4 ["a", "b"] ["c"] = none ∧
    (((parallel4 ["a", "b"] ["c"]).map Round4.H_result).drop 1).length ≠
      min (["a", "b"] : List String).length
        (["c"] : List String).length :=
  ⟨rfl, by decide⟩

/-- Claim C5 (amended): provided the `z` stream is at least as long as
the `x` stream, the run produces an output sequence whose length equals
the length of the shortest input stream (= the `x` stream), and every
access is in bounds: the serial evaluator succeeds with that many
entries, and the parallel run emits that many post-fill final-output
candidates.  (When the `z` stream is shorter, the serial evaluator of
`main4.cpp` reads `z_vec[i]` out of bounds.) -/
theorem output_length_min_stream (x_vec z_vec : List String)
    (h : x_vec.length ≤ z_vec.length) :
    (serial4 x_vec z_vec).map List.length =
      some (min x_vec.length z_vec.length) ∧
    (((parallel4 x_vec z_vec).map Round4.H_result).drop 1).length =
      min x_vec.length z_vec.length := by
  have hmin : min x_vec.length z_vec.length = x_vec.length :=
    Nat.min_eq_left h
  constructor
  · rw [serial4_eq_some x_vec z_vec h]
    simp [hmin]
  · rw [hmin]
    simp [parallel4_length]

/-- Witness for the amended C5 at `x = ["a"]`, `z = ["b", "c"]`. -/
theorem output_length_min_stream_witness :
    (["a"] : List String).length ≤ (["b", "c"] : List String).length ∧
    ((serial4 ["a"] ["b", "c"]).map List.length =
       some (min (["a"] : List String).length
         (["b", "c"] : List String).length) ∧
     (((parallel4 ["a"] ["b", "c"]).map Round4.H_result).drop 1).length =
       min (["a"] : List String).length
         (["b", "c"] : List String).length) :=
  ⟨by decide, output_length_min_stream ["a"] ["b", "c"] (by decide)⟩

/-- Claim C6: in the diamond scenario of `main4.cpp` with the two
input streams `x_0..x_9` and `z_0..z_9`, the parallel run executes
exactly 11 rounds, and its post-fill final-stage outputs are exactly
`H(F(x_i) + G(z_i))` for `i = 0..9`, matching the serial evaluator. -/
theorem diamond_scenario :
    (parallel4 (gen_vec_string 10 "x") (gen_vec_string 10 "z")).length
      = 11 ∧
    ((parallel4 (gen_vec_string 10 "x") (gen_vec_string 10 "z")).map
        Round4.H_result).drop 1 =
      (List.range 10).map (fun i =>
        H (sum (F ("x_" ++ toString i)) (G ("z_" ++ toString i)))) ∧
    serial4 (gen_vec_string 10 "x") (gen_vec_string 10 "z") =
      some (((parallel4 (gen_vec_string 10 "x")
        (gen_vec_string 10 "z")).map Round4.H_result).drop 1) :=
  ⟨rfl, rfl, rfl⟩

/-- Claim C9: the parallel execution of `main2.cpp` is deterministic:
under any two complete task schedules (every one of the round's three
async tasks executes), the run produces identical per-round records —
identical `F`, `G`, `H` results and identical buffer snapshots at
every round — because each task computes on its launch-time argument
copy and the buffer writes happen only after the round's join. -/
theorem parallel2_deterministic (x_vec : List String)
    (s₁ s₂ : Nat → List (Fin 3))
    (h₁ : ∀ k (j : Fin 3), j ∈ s₁ k)
    (h₂ : ∀ k (j : Fin 3), j ∈ s₂ k) :
    parallel2Sched x_vec s₁ = parallel2Sched x_vec s₂ := by
  rw [parallel2Sched_complete x_vec s₁ h₁,
    parallel2Sched_complete x_vec s₂ h₂]

/-- Witness for C9: two different concrete schedules of the run on
`["a"]` yield the same trace. -/
theorem parallel2_deterministic_witness :
    (∀ k (j : Fin 3), j ∈ (fun _ : Nat => ([0, 1, 2] : List (Fin 3))) k) ∧
    (∀ k (j : Fin 3), j ∈ (fun _ : Nat => ([2, 0, 1] : List (Fin 3))) k) ∧
    parallel2Sched ["a"] (fun _ => [0, 1, 2]) =
      parallel2Sched ["a"] (fun _ => [2, 0, 1]) :=
  ⟨by intro k; exact (by decide : ∀ j : Fin 3, j ∈ [0, 1, 2]),
   by intro k; exact (by decide : ∀ j : Fin 3, j ∈ [2, 0, 1]),
   parallel2_deterministic ["a"] (fun _ => [0, 1, 2]) (fun _ => [2, 0, 1])
     (by intro k; exact (by decide : ∀ j : Fin 3, j ∈ [0, 1, 2]))
     (by intro k; exact (by decide : ∀ j : Fin 3, j ∈ [2, 0, 1]))⟩

/-- Claim C10: `gen_vec_string(n, prefix)` returns a vector of exactly
`n` strings whose entry at each index `i < n` is
`prefix + "_" + to_string(i)`. -/
theorem gen_vec_string_spec (n : Nat) (pfx : String) (i : Nat) :
    (gen_vec_string n pfx).length = n ∧
    (gen_vec_string n pfx).get? i =
      (if i < n then some (pfx ++ "_" ++ toString i) else none) := by
  constructor
  · simp [gen_vec_string]
  · by_cases h : i < n
    · simp [gen_vec_string, h, List.get?_eq_getElem?,
        List.getElem?_eq_getElem, List.getElem_range]
    · simp [gen_vec_string, h, List.get?_eq_getElem?,
        List.getElem?_eq_none, Nat.le_of_not_lt]

end Pipelines
